import Mathlib

/-!
Verification development for the Propalytic house-price inference core
(`src/models/predictor.py` and the confidence display in
`src/components/prediction_display.py`).

Numbers are modelled as rationals.  The trained artifacts (the regression
model, its sub-estimators, the scaler transform) and the numeric-library
functions `np.exp` and `np.std` are opaque functions supplied as parameters,
since their code lives outside this repository.  A Python exception that
escapes a function is an `Except.error`; an exception caught and converted to
the `(0, dict-with-error)` result is an `Except.ok` carrying that shape.
-/

namespace Propalytic

/-- Value of an entry in the caller-supplied feature dict: either a number or
a categorical code string. -/
inductive Value where
  | num (q : ℚ)
  | str (s : String)
deriving DecidableEq, Repr

/-- Lookup in an association list modelling a Python dict (first match wins;
dict keys are unique). -/
def alookup {α : Type} : List (String × α) → String → Option α
  | [], _ => none
  | (k, v) :: rest, key => if k = key then some v else alookup rest key

/-- Numeric value of a nonempty list of decimal digit characters. -/
def natOfDigits (cs : List Char) : Option ℕ :=
  if cs ≠ [] ∧ cs.all Char.isDigit then
    some (cs.foldl (fun a c => 10 * a + (c.toNat - 48)) 0)
  else none

/-- Models the string acceptance of the Python builtin float, restricted to
plain decimal literals (optional sign, digits, optional fraction); forms such
as exponents, "inf" or "nan" are outside every input this development
evaluates and are rejected here. -/
def parseDecimal (s : String) : Option ℚ :=
  let cs := s.toList
  let signed : Bool × List Char :=
    match cs with
    | '-' :: r => (true, r)
    | '+' :: r => (false, r)
    | _ => (false, cs)
  let body := signed.2
  let ip := body.takeWhile Char.isDigit
  let rest := body.drop ip.length
  let mag : Option ℚ :=
    match rest with
    | [] => (natOfDigits ip).map (fun n => (n : ℚ))
    | '.' :: fp =>
      match natOfDigits ip, natOfDigits fp with
      | some n, some f => some ((n : ℚ) + (f : ℚ) / (10 : ℚ) ^ fp.length)
      | _, _ => none
    | _ => none
  mag.map (fun q => if signed.1 then -q else q)

/-- Models the Python float coercion applied at predictor.py line 287: a
number passes through; a string parses or raises ValueError. -/
def valueToFloat : Value → Except String ℚ
  | .num q => .ok q
  | .str s =>
    match parseDecimal s with
    | some q => .ok q
    | none => .error ("could not convert string to float: " ++ s)

/-- Models mapping.get(value, default) on a str-keyed dict: a string key is
looked up, any non-string key (a number) misses and yields the default. -/
def mappingGet (tbl : List (String × ℚ)) (v : Value) (dflt : ℚ) : ℚ :=
  match v with
  | .str s => (alookup tbl s).getD dflt
  | .num _ => dflt

/-- Encoding of one feature entry, mirroring the if/elif chain at
predictor.py lines 240-287: each categorical feature has an inline
code-to-ordinal table with a per-feature default; any other feature is
float-coerced. -/
def encodeValue (feature : String) (value : Value) : Except String ℚ :=
  if feature = "MSZoning" then
    .ok (mappingGet [("C", 0), ("RM", 1), ("RH", 2), ("RL", 3), ("FV", 4)] value 3)
  else if feature = "Neighborhood" then
    .ok (mappingGet [("MeadowV", 0), ("IDOTRR", 1), ("BrDale", 2), ("OldTown", 3),
      ("Edwards", 4), ("BrkSide", 5), ("Sawyer", 6), ("Blueste", 7), ("SWISU", 8),
      ("NAmes", 9), ("NPkVill", 10), ("Mitchel", 11), ("SawyerW", 12), ("Gilbert", 13),
      ("NWAmes", 14), ("Blmngtn", 15), ("CollgCr", 16), ("ClearCr", 17), ("Crawfor", 18),
      ("Veenker", 19), ("Somerst", 20), ("Timber", 21), ("StoneBr", 22), ("NoRidge", 23),
      ("NridgHt", 24)] value 12)
  else if feature = "RoofStyle" then
    .ok (mappingGet [("Gable", 1), ("Hip", 2), ("Gambrel", 3), ("Mansard", 4),
      ("Flat", 5), ("Shed", 6)] value 1)
  else if feature = "BsmtQual" then
    .ok (mappingGet [("NA", 0), ("Fa", 1), ("TA", 2), ("Gd", 3), ("Ex", 4)] value 3)
  else if feature = "BsmtExposure" then
    .ok (mappingGet [("NA", 0), ("No", 1), ("Mn", 2), ("Av", 3), ("Gd", 4)] value 2)
  else if feature = "HeatingQC" then
    .ok (mappingGet [("Po", 1), ("Fa", 2), ("TA", 3), ("Gd", 4), ("Ex", 5)] value 4)
  else if feature = "CentralAir" then
    .ok (mappingGet [("N", 0), ("Y", 1)] value 1)
  else if feature = "KitchenQual" then
    .ok (mappingGet [("Fa", 1), ("TA", 2), ("Gd", 3), ("Ex", 4)] value 3)
  else if feature = "FireplaceQu" then
    .ok (mappingGet [("NA", 0), ("Po", 1), ("Fa", 2), ("TA", 3), ("Gd", 4), ("Ex", 5)] value 3)
  else if feature = "GarageType" then
    .ok (mappingGet [("NA", 0), ("Detchd", 1), ("CarPort", 2), ("BuiltIn", 3),
      ("Attchd", 4)] value 1)
  else if feature = "GarageFinish" then
    .ok (mappingGet [("NA", 0), ("Unf", 1), ("RFn", 2), ("Fin", 3)] value 2)
  else if feature = "PavedDrive" then
    .ok (mappingGet [("N", 0), ("P", 1), ("Y", 2)] value 2)
  else if feature = "SaleCondition" then
    .ok (mappingGet [("AdjLand", 0), ("Abnorml", 1), ("Alloca", 2), ("Family", 3),
      ("Normal", 4), ("Partial", 5)] value 4)
  else
    valueToFloat value

/-- Names of the thirteen categorical attributes handled by the encoder
chain in predictor.py. -/
def categoricalNames : List String :=
  ["MSZoning", "Neighborhood", "RoofStyle", "BsmtQual", "BsmtExposure",
   "HeatingQC", "CentralAir", "KitchenQual", "FireplaceQu", "GarageType",
   "GarageFinish", "PavedDrive", "SaleCondition"]

/-- Code-to-ordinal table of each categorical attribute, as written inline in
the encoder chain (empty for non-categorical names). -/
def catTable : String → List (String × ℚ)
  | "MSZoning" => [("C", 0), ("RM", 1), ("RH", 2), ("RL", 3), ("FV", 4)]
  | "Neighborhood" => [("MeadowV", 0), ("IDOTRR", 1), ("BrDale", 2), ("OldTown", 3),
      ("Edwards", 4), ("BrkSide", 5), ("Sawyer", 6), ("Blueste", 7), ("SWISU", 8),
      ("NAmes", 9), ("NPkVill", 10), ("Mitchel", 11), ("SawyerW", 12), ("Gilbert", 13),
      ("NWAmes", 14), ("Blmngtn", 15), ("CollgCr", 16), ("ClearCr", 17), ("Crawfor", 18),
      ("Veenker", 19), ("Somerst", 20), ("Timber", 21), ("StoneBr", 22), ("NoRidge", 23),
      ("NridgHt", 24)]
  | "RoofStyle" => [("Gable", 1), ("Hip", 2), ("Gambrel", 3), ("Mansard", 4),
      ("Flat", 5), ("Shed", 6)]
  | "BsmtQual" => [("NA", 0), ("Fa", 1), ("TA", 2), ("Gd", 3), ("Ex", 4)]
  | "BsmtExposure" => [("NA", 0), ("No", 1), ("Mn", 2), ("Av", 3), ("Gd", 4)]
  | "HeatingQC" => [("Po", 1), ("Fa", 2), ("TA", 3), ("Gd", 4), ("Ex", 5)]
  | "CentralAir" => [("N", 0), ("Y", 1)]
  | "KitchenQual" => [("Fa", 1), ("TA", 2), ("Gd", 3), ("Ex", 4)]
  | "FireplaceQu" => [("NA", 0), ("Po", 1), ("Fa", 2), ("TA", 3), ("Gd", 4), ("Ex", 5)]
  | "GarageType" => [("NA", 0), ("Detchd", 1), ("CarPort", 2), ("BuiltIn", 3), ("Attchd", 4)]
  | "GarageFinish" => [("NA", 0), ("Unf", 1), ("RFn", 2), ("Fin", 3)]
  | "PavedDrive" => [("N", 0), ("P", 1), ("Y", 2)]
  | "SaleCondition" => [("AdjLand", 0), ("Abnorml", 1), ("Alloca", 2), ("Family", 3),
      ("Normal", 4), ("Partial", 5)]
  | _ => []

/-- Default ordinal of each categorical attribute, the second argument of
mapping.get in the encoder chain (0 for non-categorical names). -/
def catDefault : String → ℚ
  | "MSZoning" => 3
  | "Neighborhood" => 12
  | "RoofStyle" => 1
  | "BsmtQual" => 3
  | "BsmtExposure" => 2
  | "HeatingQC" => 4
  | "CentralAir" => 1
  | "KitchenQual" => 3
  | "FireplaceQu" => 3
  | "GarageType" => 1
  | "GarageFinish" => 2
  | "PavedDrive" => 2
  | "SaleCondition" => 4
  | _ => 0

/-- The hardcoded fallback list of the 21 model features
(predictor.py lines 53-59). -/
def fallbackModelFeatures : List String :=
  ["MSSubClass", "MSZoning", "Neighborhood", "OverallQual", "YearRemodAdd",
   "RoofStyle", "BsmtQual", "BsmtExposure", "HeatingQC", "CentralAir",
   "1stFlrSF", "GrLivArea", "BsmtFullBath", "KitchenQual", "Fireplaces",
   "FireplaceQu", "GarageType", "GarageFinish", "GarageCars", "PavedDrive",
   "SaleCondition"]

/-- The encoding loop of predict_price (lines 236-287): each input entry
whose key is in model_features is encoded (categoricals via their tables,
anything else float-coerced); entries with keys outside model_features are
skipped; a failed float coercion aborts the loop with the exception. -/
def encodeAll (mf : List String) : List (String × Value) → Except String (List (String × ℚ))
  | [] => .ok []
  | (f, v) :: rest =>
    if f ∈ mf then
      match encodeValue f v with
      | .error e => .error e
      | .ok q =>
        match encodeAll mf rest with
        | .error e => .error e
        | .ok tail => .ok ((f, q) :: tail)
    else
      encodeAll mf rest

/-- The 61 hardcoded default entries of the default_values dict literal in
create_full_feature_vector (predictor.py lines 149-209).  In the Python dict
literal these entries appear after the user_inputs spread, so on a key clash
these values are the ones the dict ends up holding. -/
def hardcodedDefaults : List (String × ℚ) :=
  [("LotFrontage", 70), ("LotArea", 8000), ("Street", 1), ("Alley", 0),
   ("LotShape", 3), ("LandContour", 0), ("Utilities", 0), ("LotConfig", 4),
   ("LandSlope", 0), ("Condition1", 2), ("Condition2", 2), ("BldgType", 0),
   ("HouseStyle", 5), ("OverallCond", 5), ("YearBuilt", 30), ("RoofMatl", 0),
   ("Exterior1st", 12), ("Exterior2nd", 12), ("MasVnrType", 1), ("MasVnrArea", 100),
   ("ExterQual", 3), ("ExterCond", 3), ("Foundation", 2), ("BsmtCond", 3),
   ("BsmtFinType1", 5), ("BsmtFinSF1", 400), ("BsmtFinType2", 5), ("BsmtFinSF2", 0),
   ("BsmtUnfSF", 400), ("TotalBsmtSF", 800), ("Heating", 1), ("Electrical", 4),
   ("2ndFlrSF", 0), ("LowQualFinSF", 0), ("BsmtHalfBath", 0), ("FullBath", 2),
   ("HalfBath", 0), ("BedroomAbvGr", 3), ("KitchenAbvGr", 1), ("TotRmsAbvGrd", 7),
   ("Functional", 6), ("GarageYrBlt", 30), ("GarageArea", 500), ("GarageQual", 3),
   ("GarageCond", 3), ("WoodDeckSF", 0), ("OpenPorchSF", 0), ("EnclosedPorch", 0),
   ("3SsnPorch", 0), ("ScreenPorch", 0), ("PoolArea", 0), ("PoolQC", 0),
   ("Fence", 0), ("MiscFeature", 0), ("MiscVal", 0), ("MoSold", 6),
   ("YrSold", 2010), ("SaleType", 8), ("LotFrontagenan", 0), ("MasVnrAreanan", 0),
   ("GarageYrBltnan", 0)]

/-- create_full_feature_vector (predictor.py lines 141-217): the dict
default_values is the literal Python dict where user_inputs is spread first
and the 61 hardcoded defaults are written after it, so a hardcoded entry
overrides a user entry of the same key; the vector then takes
default_values.get(f, 0.0) for each scaler feature f in order. -/
def create_full_feature_vector (scaler_features : List String)
    (user_inputs : List (String × ℚ)) : List ℚ :=
  scaler_features.map (fun f =>
    match alookup hardcodedDefaults f with
    | some v => v
    | none => (alookup user_inputs f).getD 0)

/-- The trained regression model artifact: an opaque predict function and,
when the hasattr estimators check succeeds, a list of sub-estimator predict
functions. -/
structure Model where
  predict : List ℚ → ℚ
  estimators : Option (List (List ℚ → ℚ))

/-- Numeric-library functions used by the predictor: np.exp and np.std. -/
structure Env where
  exp : ℚ → ℚ
  std : List ℚ → ℚ

/-- Loaded predictor state: optional model, the opaque scaler transform, the
model feature list and the optional scaler feature list. -/
structure Predictor where
  model : Option Model
  scalerTransform : List ℚ → List ℚ
  model_features : List String
  scaler_features : Option (List String)

/-- Result dict of a prediction; a missing Python dict key is none. -/
structure Info where
  prediction : Option ℚ := none
  confidence : Option String := none
  input_features_count : Option ℕ := none
  missing_features_count : Option ℤ := none
  category : Option String := none
  category_color : Option String := none
  std_deviation : Option ℚ := none
  confidence_interval : Option (ℚ × ℚ) := none
  error : Option String := none
deriving DecidableEq, Repr

/-- Per-estimator predictions on the feature array, each converted from log
scale by np.exp (predictor.py lines 352-353). -/
def ensemble_exp_preds (env : Env) (ts : List (List ℚ → ℚ)) (fa : List ℚ) : List ℚ :=
  (ts.map (fun t => t fa)).map env.exp

/-- The get-prediction-info step (predictor.py lines 327-363): base info with
a fixed "Medium" confidence, the counts, the price category; when the model
has sub-estimators, also the standard deviation and the 1.96-sigma interval
clipped at 0 below. -/
def get_prediction_info (env : Env) (m : Model) (feature_array : List ℚ)
    (prediction : ℚ) (inputCount : ℕ) (mfCount : ℕ) : Info :=
  let base : Info :=
    { prediction := some prediction
      confidence := some "Medium"
      input_features_count := some inputCount
      missing_features_count := some ((mfCount : ℤ) - (inputCount : ℤ))
      category := some (if prediction < 150000 then "Budget (Under $150K)"
        else if prediction > 400000 then "Premium ($400K+)"
        else "Mid-range ($150K-$400K)")
      category_color := some (if prediction < 150000 then "#e67e22"
        else if prediction > 400000 then "#9b59b6" else "#27ae60") }
  match m.estimators with
  | none => base
  | some ts =>
    let sd := env.std (ensemble_exp_preds env ts feature_array)
    { base with
      std_deviation := some sd
      confidence_interval := some
        (max 0 (prediction - 1.96 * sd), prediction + 1.96 * sd) }

/-- Construction of the model input from the encoded dict (predictor.py
lines 291-308).  With scaler features present: build the full vector, apply
the scaler transform, then pick the scaled value at the index of each model
feature in the scaler feature list (list.index raises on a missing name,
indexing raises out of bounds; both are exceptions inside the try block).
Without scaler features: take each model feature from the encoded dict with
fallback 0 and skip scaling. -/
def computeModelInput (p : Predictor) (encoded : List (String × ℚ)) :
    Except String (List ℚ) :=
  match p.scaler_features with
  | some sf =>
    let full := create_full_feature_vector sf encoded
    let scaled := p.scalerTransform full
    match p.model_features.mapM (fun f =>
        match sf.findIdx? (fun x => x = f) with
        | some i => Except.ok i
        | none => Except.error (f ++ " is not in list")) with
    | .error e => .error e
    | .ok idxs =>
      idxs.mapM (fun i =>
        match scaled.get? i with
        | some v => Except.ok v
        | none => Except.error "index out of bounds")
  | none => .ok (p.model_features.map (fun f => (alookup encoded f).getD 0))

/-- predict_price (predictor.py lines 219-325).  A missing model raises
ValueError before the try block, so that exception escapes (Except.error).
Inside the try block, any exception from encoding or input construction is
caught and converted to the ok-result (0, dict with only an error entry).
Otherwise the price is np.exp of the model output and info is attached. -/
def predict_price (env : Env) (p : Predictor) (features : List (String × Value)) :
    Except String (ℚ × Info) :=
  match p.model with
  | none => .error "Model not loaded"
  | some m =>
    match encodeAll p.model_features features with
    | .error e => .ok (0, { error := some e })
    | .ok encoded =>
      match computeModelInput p encoded with
      | .error e => .ok (0, { error := some e })
      | .ok mi =>
        let prediction := env.exp (m.predict mi)
        .ok (prediction,
          get_prediction_info env m mi prediction encoded.length p.model_features.length)

/-- Feature count read by the display component:
prediction_info.get(input-features-count, 8). -/
def display_feature_count (info : Info) : ℕ :=
  info.input_features_count.getD 8

/-- Confidence factor and label of display_confidence_interval
(prediction_display.py lines 239-247). -/
def display_confidence (feature_count : ℕ) : ℚ × String :=
  if 15 ≤ feature_count then (0.8, "High")
  else if 10 ≤ feature_count then (1, "Medium")
  else (1.2, "Medium")

/-! Concrete fixtures used by witnesses and counterexamples. -/

/-- Environment whose exp is constantly 1 and whose std is constantly 0. -/
def trivialEnv : Env := { exp := fun _ => 1, std := fun _ => 0 }

/-- Model returning 0 with no sub-estimators. -/
def constModel : Model := { predict := fun _ => 0, estimators := none }

/-- Model returning 0 with a single sub-estimator. -/
def ensembleModel : Model := { predict := fun _ => 0, estimators := some [fun _ => 0] }

/-- Predictor with no loaded model. -/
def noModelPredictor : Predictor :=
  { model := none, scalerTransform := id,
    model_features := fallbackModelFeatures, scaler_features := none }

/-- Predictor in degraded mode: model loaded, scaler features unavailable. -/
def degradedPredictor : Predictor :=
  { model := some constModel, scalerTransform := id,
    model_features := fallbackModelFeatures, scaler_features := none }

/-- Degraded-mode predictor whose model exposes sub-estimators. -/
def degradedEnsemblePredictor : Predictor :=
  { model := some ensembleModel, scalerTransform := id,
    model_features := fallbackModelFeatures, scaler_features := none }

/-- Fifteen distinct reduced-schema attributes, as a caller would supply. -/
def features15 : List (String × Value) :=
  [("MSSubClass", .num 60), ("MSZoning", .str "RL"), ("Neighborhood", .str "CollgCr"),
   ("OverallQual", .num 7), ("YearRemodAdd", .num 2003), ("RoofStyle", .str "Gable"),
   ("BsmtQual", .str "Gd"), ("BsmtExposure", .str "No"), ("HeatingQC", .str "Ex"),
   ("CentralAir", .str "Y"), ("1stFlrSF", .num 856), ("GrLivArea", .num 1710),
   ("BsmtFullBath", .num 1), ("KitchenQual", .str "Gd"), ("Fireplaces", .num 0)]

end Propalytic

namespace Propalytic

/-! Helper lemmas shared by the claim theorems. -/

/-- Encoding of a categorical attribute agrees with its table and default. -/
lemma encodeValue_cat (f : String) (hf : f ∈ categoricalNames) (v : Value) :
    encodeValue f v = .ok (mappingGet (catTable f) v (catDefault f)) := by
  fin_cases hf <;> rfl

/-- Encoding of a non-categorical attribute is the float coercion. -/
lemma encodeValue_noncat (f : String) (hf : f ∉ categoricalNames) (v : Value) :
    encodeValue f v = valueToFloat v := by
  simp only [categoricalNames, List.mem_cons, List.not_mem_nil, or_false, not_or] at hf
  obtain ⟨h1, h2, h3, h4, h5, h6, h7, h8, h9, h10, h11, h12, h13⟩ := hf
  simp only [encodeValue, if_neg h1, if_neg h2, if_neg h3, if_neg h4, if_neg h5,
    if_neg h6, if_neg h7, if_neg h8, if_neg h9, if_neg h10, if_neg h11, if_neg h12,
    if_neg h13]

/-- Keys outside model_features never reach the encoded output. -/
lemma encodeAll_lookup_not_mem (mf : List String) (f : String) :
    ∀ (features : List (String × Value)) (out : List (String × ℚ)),
      encodeAll mf features = .ok out → f ∉ mf → alookup out f = none := by
  intro features
  induction features with
  | nil =>
    intro out h _
    simp only [encodeAll] at h
    cases h
    rfl
  | cons e rest ih =>
    obtain ⟨g, w⟩ := e
    intro out h hf
    by_cases hg : g ∈ mf
    · simp only [encodeAll, if_pos hg] at h
      cases hev : encodeValue g w with
      | error e0 => rw [hev] at h; cases h
      | ok q =>
        rw [hev] at h
        cases hrec : encodeAll mf rest with
        | error e0 => rw [hrec] at h; cases h
        | ok tail =>
          rw [hrec] at h
          cases h
          rw [alookup, if_neg (by rintro rfl; exact hf hg)]
          exact ih tail hrec hf
    · simp only [encodeAll, if_neg hg] at h
      exact ih out h hf

/-- A key in model_features that is present in the input is encoded by
encodeValue and lands in the output under the same key. -/
lemma encodeAll_lookup_mem (mf : List String) (f : String) :
    ∀ (features : List (String × Value)) (out : List (String × ℚ)) (v : Value),
      encodeAll mf features = .ok out → f ∈ mf → alookup features f = some v →
      ∃ q, encodeValue f v = .ok q ∧ alookup out f = some q := by
  intro features
  induction features with
  | nil => intro out v _ _ hl; cases hl
  | cons e rest ih =>
    obtain ⟨g, w⟩ := e
    intro out v h hf hl
    by_cases hg : g ∈ mf
    · simp only [encodeAll, if_pos hg] at h
      cases hev : encodeValue g w with
      | error e0 => rw [hev] at h; cases h
      | ok q =>
        rw [hev] at h
        cases hrec : encodeAll mf rest with
        | error e0 => rw [hrec] at h; cases h
        | ok tail =>
          rw [hrec] at h
          cases h
          rw [alookup] at hl
          by_cases hfg : g = f
          · subst hfg
            rw [if_pos rfl] at hl
            cases hl
            exact ⟨q, hev, by rw [alookup, if_pos rfl]⟩
          · rw [if_neg hfg] at hl
            obtain ⟨q0, hq0, hlq⟩ := ih tail v hrec hf hl
            exact ⟨q0, hq0, by rw [alookup, if_neg hfg]; exact hlq⟩
    · simp only [encodeAll, if_neg hg] at h
      rw [alookup] at hl
      by_cases hfg : g = f
      · subst hfg
        exact absurd hf hg
      · rw [if_neg hfg] at hl
        exact ih out v h hf hl

/-- Every error message produced by encodeValue is nonempty. -/
lemma encodeValue_error_pos (f : String) (v : Value) (e : String)
    (h : encodeValue f v = .error e) : 0 < e.length := by
  by_cases hf : f ∈ categoricalNames
  · rw [encodeValue_cat f hf] at h
    cases h
  · rw [encodeValue_noncat f hf] at h
    cases v with
    | num q => cases h
    | str s =>
      simp only [valueToFloat] at h
      cases hp : parseDecimal s with
      | some q => rw [hp] at h; cases h
      | none =>
        rw [hp] at h
        cases h
        rw [String.length_append]
        have hpre : ("could not convert string to float: " : String).length = 35 := rfl
        omega

/-- Every error message produced by the encoding loop is nonempty. -/
lemma encodeAll_error_pos (mf : List String) :
    ∀ (features : List (String × Value)) (e : String),
      encodeAll mf features = .error e → 0 < e.length := by
  intro features
  induction features with
  | nil => intro e h; cases h
  | cons en rest ih =>
    obtain ⟨g, w⟩ := en
    intro e h
    by_cases hg : g ∈ mf
    · simp only [encodeAll, if_pos hg] at h
      cases hev : encodeValue g w with
      | error e0 =>
        rw [hev] at h
        cases h
        exact encodeValue_error_pos g w _ hev
      | ok q =>
        rw [hev] at h
        cases hrec : encodeAll mf rest with
        | error e0 => rw [hrec] at h; cases h; exact ih _ hrec
        | ok tail => rw [hrec] at h; cases h
    · simp only [encodeAll, if_neg hg] at h
      exact ih e h

/-- Successful result of predict_price on features15 under the trivial
environment and the degraded predictor. -/
def resultC3 : ℚ × Info :=
  (predict_price trivialEnv degradedPredictor features15).toOption.getD (0, {})

/-- Successful result of predict_price on the empty input under the trivial
environment and the degraded ensemble predictor. -/
def resultC9 : ℚ × Info :=
  (predict_price trivialEnv degradedEnsemblePredictor []).toOption.getD (0, {})

/-- Degraded-mode model input for an empty encoded dict: one 0 per model
feature. -/
def miW : List ℚ := List.replicate 21 0

/-! Claim theorems. -/

/-- C1 counterexample: the claim says a caller-supplied value wins over a
hardcoded full-schema default, but for the attribute YearBuilt, which has
hardcoded default 30, the assembled vector carries 30 even though the caller
supplied 2003; in the Python dict literal the 61 hardcoded defaults are
written after the user_inputs spread and therefore override it. -/
theorem C1_hardcoded_default_wins_counterexample :
    create_full_feature_vector ["YearBuilt"] [("YearBuilt", 2003)] = [30] ∧
    (30 : ℚ) ≠ 2003 := by
  exact ⟨rfl, by norm_num⟩

/-- C1 amended: in the assembled full vector, a slot whose attribute has a
hardcoded default always carries that hardcoded default, even when the caller
supplied the attribute; the caller value fills exactly the slots of
attributes without a hardcoded default. -/
theorem C1_override_precedence_amended (sf : List String)
    (u : List (String × ℚ)) (i : ℕ) (f : String) (hsf : sf.get? i = some f) :
    (∀ d, alookup hardcodedDefaults f = some d →
      (create_full_feature_vector sf u).get? i = some d) ∧
    (alookup hardcodedDefaults f = none → ∀ v, alookup u f = some v →
      (create_full_feature_vector sf u).get? i = some v) := by
  have hget : (create_full_feature_vector sf u).get? i =
      some (match alookup hardcodedDefaults f with
        | some w => w
        | none => (alookup u f).getD 0) := by
    rw [create_full_feature_vector, List.get?_eq_getElem?, List.getElem?_map,
      ← List.get?_eq_getElem?, hsf]
    rfl
  constructor
  · intro d hd
    rw [hget, hd]
  · intro hd v hv
    rw [hget, hd, hv]
    rfl

/-- C1 witness: the amended statement applied to the one-slot schema
[YearBuilt] and the caller input YearBuilt = 2003. -/
theorem C1_override_precedence_witness :
    (["YearBuilt"].get? 0 = some "YearBuilt") ∧
    ((∀ d, alookup hardcodedDefaults "YearBuilt" = some d →
      (create_full_feature_vector ["YearBuilt"] [("YearBuilt", 2003)]).get? 0 = some d) ∧
    (alookup hardcodedDefaults "YearBuilt" = none → ∀ v,
      alookup [("YearBuilt", (2003 : ℚ))] "YearBuilt" = some v →
      (create_full_feature_vector ["YearBuilt"] [("YearBuilt", 2003)]).get? 0 = some v)) :=
  ⟨rfl, C1_override_precedence_amended ["YearBuilt"] [("YearBuilt", 2003)] 0 "YearBuilt" rfl⟩

/-- C2 counterexample: with no loaded model, predict_price raises (the
ValueError escapes as Except.error instead of returning a structured ok
result), so the claim that no exception escapes to the caller is false. -/
theorem C2_exception_escapes_counterexample :
    predict_price trivialEnv noModelPredictor [] = .error "Model not loaded" := rfl

/-- C2 amended: if the model was never loaded, every predict call for every
input map fails immediately, before any encoding or inference, by raising
ValueError "Model not loaded"; the exception propagates to the caller rather
than being converted into the structured (0, info-with-error) result. -/
theorem C2_model_unavailable_amended (env : Env) (p : Predictor)
    (features : List (String × Value)) (hm : p.model = none) :
    predict_price env p features = .error "Model not loaded" := by
  simp only [predict_price, hm]

/-- C2 witness: the amended statement applied to a predictor with no model
and a nonempty input map. -/
theorem C2_model_unavailable_witness :
    (noModelPredictor.model = none) ∧
    predict_price trivialEnv noModelPredictor [("GrLivArea", .num 1710)]
      = .error "Model not loaded" :=
  ⟨rfl, C2_model_unavailable_amended trivialEnv noModelPredictor
    [("GrLivArea", .num 1710)] rfl⟩

/-- C3 counterexample: the caller supplies exactly 15 distinct reduced-schema
attributes, yet the confidence label in the info returned by predict_price is
Medium, not High; predictor.py line 332 sets the label to the constant
Medium. -/
theorem C3_high_threshold_counterexample :
    features15.length = 15 ∧
    (predict_price trivialEnv degradedPredictor features15).toOption.map
      (fun r => r.2.confidence) = some (some "Medium") :=
  ⟨rfl, rfl⟩

/-- C3 amended: the info returned by a successful predict_price always
carries the confidence label Medium regardless of how many attributes the
caller supplied; the High-for-at-least-15 rule lives only in the display
component, whose label is High for a count of at least 15 and Medium
otherwise (its two lower branches both yield Medium). -/
theorem C3_confidence_label_amended :
    (∀ n : ℕ, (display_confidence n).2 = if 15 ≤ n then "High" else "Medium") ∧
    (∀ (env : Env) (p : Predictor) (features : List (String × Value))
      (price : ℚ) (info : Info),
      predict_price env p features = .ok (price, info) → info.error = none →
      info.confidence = some "Medium") := by
  constructor
  · intro n
    by_cases h15 : 15 ≤ n
    · simp [display_confidence, h15]
    · by_cases h10 : 10 ≤ n <;> simp [display_confidence, h15, h10]
  · intro env p features price info h herr
    cases hm : p.model with
    | none =>
      simp only [predict_price, hm] at h
      cases h
    | some m =>
      cases henc : encodeAll p.model_features features with
      | error e =>
        simp only [predict_price, hm, henc] at h
        cases h
        cases herr
      | ok encoded =>
        cases hmi : computeModelInput p encoded with
        | error e =>
          simp only [predict_price, hm, henc, hmi] at h
          cases h
          cases herr
        | ok mi =>
          simp only [predict_price, hm, henc, hmi] at h
          cases h
          cases hts : m.estimators <;> simp [get_prediction_info, hts]

/-- C3 witness: the amended statement applied to the concrete successful
prediction on features15. -/
theorem C3_confidence_label_witness :
    (predict_price trivialEnv degradedPredictor features15
      = .ok (resultC3.1, resultC3.2)) ∧
    (resultC3.2.error = none) ∧ resultC3.2.confidence = some "Medium" :=
  ⟨rfl, rfl, C3_confidence_label_amended.2 trivialEnv degradedPredictor features15
    resultC3.1 resultC3.2 rfl rfl⟩

/-- C4 counterexample: the entry LotArea = 8450 has a key that is not a
recognized categorical attribute, yet the encoded output omits it entirely
(the encoding loop keeps only keys found in model_features), contradicting
the claim that every present non-categorical entry passes through. -/
theorem C4_dropped_key_counterexample :
    encodeAll fallbackModelFeatures [("LotArea", Value.num 8450)] = .ok [] ∧
    alookup ([] : List (String × ℚ)) "LotArea" = none :=
  ⟨rfl, rfl⟩

/-- C4 amended: float-coerced pass-through applies exactly to input entries
whose key is a non-categorical member of model_features; entries whose key is
outside model_features are omitted from the encoded output even though they
are present in the input. -/
theorem C4_passthrough_amended (mf : List String)
    (features : List (String × Value)) (out : List (String × ℚ)) (f : String)
    (h : encodeAll mf features = .ok out) :
    (f ∉ mf → alookup out f = none) ∧
    (∀ q : ℚ, f ∈ mf → f ∉ categoricalNames →
      alookup features f = some (.num q) → alookup out f = some q) := by
  constructor
  · intro hf
    exact encodeAll_lookup_not_mem mf f features out h hf
  · intro q hf hnc hl
    obtain ⟨q0, hq0, hlq⟩ := encodeAll_lookup_mem mf f features out (.num q) h hf hl
    rw [encodeValue_noncat f hnc] at hq0
    cases hq0
    exact hlq

/-- C4 witness: the amended statement applied to an input containing the
model feature GrLivArea (kept, coerced) next to LotArea (dropped). -/
theorem C4_passthrough_witness :
    (encodeAll fallbackModelFeatures
      [("GrLivArea", Value.num 1710), ("LotArea", Value.num 8450)]
      = .ok [("GrLivArea", 1710)]) ∧
    ("GrLivArea" ∈ fallbackModelFeatures) ∧
    ("GrLivArea" ∉ categoricalNames) ∧
    (alookup [("GrLivArea", Value.num 1710), ("LotArea", Value.num 8450)] "GrLivArea"
      = some (Value.num 1710)) ∧
    alookup [(("GrLivArea" : String), (1710 : ℚ))] "GrLivArea" = some 1710 :=
  ⟨rfl, by decide, by decide, rfl,
    (C4_passthrough_amended fallbackModelFeatures
      [("GrLivArea", Value.num 1710), ("LotArea", Value.num 8450)]
      [("GrLivArea", 1710)] "GrLivArea" rfl).2 1710 (by decide) (by decide) rfl⟩

/-- C5 counterexample: the predictor is in degraded mode (no scaler
features), its model exposes sub-estimators, and the returned info does carry
a confidence-interval field; presence of the interval depends only on the
ensemble check at predictor.py line 349, not on normalization availability. -/
theorem C5_ci_in_degraded_mode_counterexample :
    degradedEnsemblePredictor.scaler_features = none ∧
    (predict_price trivialEnv degradedEnsemblePredictor []).toOption.map
      (fun r => r.2.confidence_interval.isSome) = some true :=
  ⟨rfl, rfl⟩

/-- C5 amended: in degraded mode predict still succeeds with the price
exp(model output) computed on the input built directly from the encoded map
with 0 for absent reduced-schema names, skipping normalization, and that
price is positive whenever exp is positive; but the info lacks the
confidence-interval field exactly when the model has no sub-estimators,
independent of degraded mode. -/
theorem C5_degraded_mode_amended (env : Env) (p : Predictor) (m : Model)
    (features : List (String × Value)) (encoded : List (String × ℚ))
    (dmI : List ℚ)
    (hm : p.model = some m) (hsf : p.scaler_features = none)
    (henc : encodeAll p.model_features features = .ok encoded)
    (hdm : dmI = p.model_features.map (fun f => (alookup encoded f).getD 0))
    (hexp : ∀ x, 0 < env.exp x) :
    predict_price env p features = .ok (env.exp (m.predict dmI),
      get_prediction_info env m dmI (env.exp (m.predict dmI))
        encoded.length p.model_features.length) ∧
    0 < env.exp (m.predict dmI) ∧
    ((get_prediction_info env m dmI (env.exp (m.predict dmI))
        encoded.length p.model_features.length).confidence_interval = none
      ↔ m.estimators = none) := by
  subst hdm
  refine ⟨?_, hexp _, ?_⟩
  · simp only [predict_price, hm, henc, computeModelInput, hsf]
  · cases hts : m.estimators <;> simp [get_prediction_info, hts]

/-- C5 witness: the amended statement applied to the degraded predictor with
no sub-estimators, the empty input and the everywhere-1 exp. -/
theorem C5_degraded_mode_witness :
    (degradedPredictor.model = some constModel) ∧
    (degradedPredictor.scaler_features = none) ∧
    (encodeAll degradedPredictor.model_features [] = .ok []) ∧
    (miW = degradedPredictor.model_features.map
      (fun f => (alookup ([] : List (String × ℚ)) f).getD 0)) ∧
    (∀ x : ℚ, 0 < trivialEnv.exp x) ∧
    (predict_price trivialEnv degradedPredictor [] = .ok (trivialEnv.exp (constModel.predict miW),
      get_prediction_info trivialEnv constModel miW (trivialEnv.exp (constModel.predict miW)) 0 21) ∧
    0 < trivialEnv.exp (constModel.predict miW) ∧
    ((get_prediction_info trivialEnv constModel miW (trivialEnv.exp (constModel.predict miW))
        0 21).confidence_interval = none ↔ constModel.estimators = none)) :=
  ⟨rfl, rfl, rfl, rfl, fun _ => one_pos,
    C5_degraded_mode_amended trivialEnv degradedPredictor constModel [] [] miW
      rfl rfl rfl rfl (fun _ => one_pos)⟩

/-- C6 confirmed: for every categorical attribute the encoder is total over
all values, an unrecognized code resolves to the attribute's configured
default ordinal, and the documented defaults for Neighborhood, MSZoning and
CentralAir are 12, 3 and 1. -/
theorem C6_total_encoding (f : String) (hf : f ∈ categoricalNames) :
    (∀ v : Value, ∃ q, encodeValue f v = .ok q) ∧
    (∀ s : String, alookup (catTable f) s = none →
      encodeValue f (.str s) = .ok (catDefault f)) ∧
    catDefault "Neighborhood" = 12 ∧ catDefault "MSZoning" = 3 ∧
    catDefault "CentralAir" = 1 := by
  refine ⟨fun v => ⟨_, encodeValue_cat f hf v⟩, ?_, rfl, rfl, rfl⟩
  intro s hs
  rw [encodeValue_cat f hf]
  simp only [mappingGet, hs, Option.getD_none]

/-- C6 witness: the statement applied to Neighborhood and the unrecognized
code Lakeview, which encodes to the default ordinal 12. -/
theorem C6_total_encoding_witness :
    ("Neighborhood" ∈ categoricalNames) ∧
    (alookup (catTable "Neighborhood") "Lakeview" = none) ∧
    encodeValue "Neighborhood" (.str "Lakeview") = .ok (catDefault "Neighborhood") :=
  ⟨by decide, rfl,
    (C6_total_encoding "Neighborhood" (by decide)).2.1 "Lakeview" rfl⟩

/-- C7 confirmed: for every encoded input map, including the empty one, the
assembled full vector has exactly one numeric slot per scaler feature, in the
scaler's recorded order, so its length is the full schema's length and no
slot is empty (every slot is a total rational value by construction). -/
theorem C7_full_vector_length (sf : List String) (u : List (String × ℚ)) :
    (create_full_feature_vector sf u).length = sf.length := by
  simp [create_full_feature_vector]

/-- C8 confirmed: whenever the model is loaded and encoding and model-input
construction succeed, predict_price reports exactly exp of the raw scalar
model output on that input. -/
theorem C8_log_exp_transform (env : Env) (p : Predictor) (m : Model)
    (features : List (String × Value)) (encoded : List (String × ℚ)) (mi : List ℚ)
    (hm : p.model = some m)
    (henc : encodeAll p.model_features features = .ok encoded)
    (hmi : computeModelInput p encoded = .ok mi) :
    predict_price env p features = .ok (env.exp (m.predict mi),
      get_prediction_info env m mi (env.exp (m.predict mi))
        encoded.length p.model_features.length) := by
  simp only [predict_price, hm, henc, hmi]

/-- C8 witness: the statement applied to the degraded predictor on the empty
input, whose model input is 21 zeros. -/
theorem C8_log_exp_transform_witness :
    (degradedPredictor.model = some constModel) ∧
    (encodeAll degradedPredictor.model_features [] = .ok []) ∧
    (computeModelInput degradedPredictor [] = .ok miW) ∧
    predict_price trivialEnv degradedPredictor [] = .ok (trivialEnv.exp (constModel.predict miW),
      get_prediction_info trivialEnv constModel miW
        (trivialEnv.exp (constModel.predict miW)) 0 21) :=
  ⟨rfl, rfl, rfl,
    C8_log_exp_transform trivialEnv degradedPredictor constModel [] [] miW
      rfl rfl rfl⟩

/-- C9 confirmed: when the model exposes sub-estimators, the info of a
successful prediction carries the standard deviation of the exponentiated
per-estimator predictions on the model input and the interval from price
minus 1.96 sigma (clipped at 0) to price plus 1.96 sigma. -/
theorem C9_ensemble_interval (env : Env) (p : Predictor) (m : Model)
    (ts : List (List ℚ → ℚ)) (features : List (String × Value))
    (encoded : List (String × ℚ)) (mi : List ℚ) (price : ℚ) (info : Info)
    (hm : p.model = some m) (hts : m.estimators = some ts)
    (henc : encodeAll p.model_features features = .ok encoded)
    (hmi : computeModelInput p encoded = .ok mi)
    (hpred : predict_price env p features = .ok (price, info)) :
    info.std_deviation = some (env.std (ensemble_exp_preds env ts mi)) ∧
    info.confidence_interval = some
      (max 0 (price - 1.96 * env.std (ensemble_exp_preds env ts mi)),
        price + 1.96 * env.std (ensemble_exp_preds env ts mi)) := by
  simp only [predict_price, hm, henc, hmi] at hpred
  cases hpred
  simp [get_prediction_info, hts]

/-- C9 witness: the statement applied to the degraded ensemble predictor on
the empty input. -/
theorem C9_ensemble_interval_witness :
    (degradedEnsemblePredictor.model = some ensembleModel) ∧
    (ensembleModel.estimators = some [fun _ => 0]) ∧
    (encodeAll degradedEnsemblePredictor.model_features [] = .ok []) ∧
    (computeModelInput degradedEnsemblePredictor [] = .ok miW) ∧
    (predict_price trivialEnv degradedEnsemblePredictor [] = .ok (resultC9.1, resultC9.2)) ∧
    (resultC9.2.std_deviation
      = some (trivialEnv.std (ensemble_exp_preds trivialEnv [fun _ => 0] miW)) ∧
    resultC9.2.confidence_interval = some
      (max 0 (resultC9.1 - 1.96 * trivialEnv.std (ensemble_exp_preds trivialEnv [fun _ => 0] miW)),
        resultC9.1 + 1.96 * trivialEnv.std (ensemble_exp_preds trivialEnv [fun _ => 0] miW))) :=
  ⟨rfl, rfl, rfl, rfl, rfl,
    C9_ensemble_interval trivialEnv degradedEnsemblePredictor ensembleModel
      [fun _ => 0] [] [] miW resultC9.1 resultC9.2 rfl rfl rfl rfl rfl⟩

/-- C10 confirmed: when encoding fails with an exception (the only exception
source in the loop is a failed float coercion of a non-numeric value for a
non-categorical attribute), predict_price catches it at its boundary and
returns the pair (0, info) whose info carries exactly a nonempty error
description; the exception does not propagate. -/
theorem C10_error_result_shape (env : Env) (p : Predictor) (m : Model)
    (features : List (String × Value)) (e : String)
    (hm : p.model = some m)
    (henc : encodeAll p.model_features features = .error e) :
    predict_price env p features = .ok (0, { error := some e }) ∧ 0 < e.length := by
  refine ⟨?_, encodeAll_error_pos p.model_features features e henc⟩
  simp only [predict_price, hm, henc]

/-- C10 witness: the statement applied to the non-numeric value big supplied
for the numeric attribute GrLivArea. -/
theorem C10_error_result_shape_witness :
    (degradedPredictor.model = some constModel) ∧
    (encodeAll degradedPredictor.model_features [("GrLivArea", Value.str "big")]
      = .error "could not convert string to float: big") ∧
    (predict_price trivialEnv degradedPredictor [("GrLivArea", Value.str "big")]
      = .ok (0, { error := some "could not convert string to float: big" }) ∧
    0 < ("could not convert string to float: big" : String).length) :=
  ⟨rfl, rfl,
    C10_error_result_shape trivialEnv degradedPredictor constModel
      [("GrLivArea", Value.str "big")] "could not convert string to float: big" rfl rfl⟩

end Propalytic
